import Mathlib

/-!
Shallow embedding of the failure similarity & pattern-analysis engine of the
`ai-analysis` service (src/log_parser.py, config/settings.py,
src/vector_store.py, src/analysis_service.py).

The embedding model (sentence-transformers) and the Qdrant vector backend are
external collaborators: the model is abstracted as a scoring function
`String → String → ℚ` (cosine similarity of the query text against a stored
embedding text), and the backend's k-nearest-neighbor query is modelled from
the spec (see `query_points`).  Python floats are modelled as rationals.
-/

/-- The `TestEvent` dataclass of src/log_parser.py: one observed test
execution or log entry. -/
structure TestEvent where
  event_id : String
  timestamp : String
  test_id : String
  test_name : String
  suite : String
  class_name : String
  environment : String
  level : String
  status : String
  message : String
  stacktrace : Option String := none
  duration_ms : Nat := 0
  service : String := "selenium-ui-tests"
  attributes : List (String × String) := []

/-- `TestEvent.is_failure`: status is FAILED and level is ERROR. -/
def TestEvent.is_failure (e : TestEvent) : Bool :=
  e.status == ("FAILED") && e.level == ("ERROR")

/-- `TestEvent.failure_signature`: a searchable multi-field signature; empty
for non-failures; appends the first non-blank, non-tab-indented line among the
first five stacktrace lines.  Python's `if self.stacktrace:` is falsy both for
`None` and for the empty string. -/
def TestEvent.failure_signature (e : TestEvent) : String :=
  if !e.is_failure then ""
  else
    let parts := ["Test: " ++ e.test_name, "Class: " ++ e.class_name,
                  "Error: " ++ e.message]
    let parts :=
      match e.stacktrace with
      | none => parts
      | some st =>
        if st == ("") then parts
        else
          match ((st.splitOn ("\n")).take 5).find?
              (fun line => !(line.trim == ("")) && !(line.startsWith ("\t"))) with
          | some line => parts ++ ["Exception: " ++ line.trim]
          | none => parts
    String.intercalate (" | ") parts

/-- `TestEvent.to_embedding_text`: the deterministic text used for embedding:
test name, class, suite, error message, and the first 10 stacktrace lines
joined with spaces.  Python's `if self.stacktrace:` is falsy for `None` and
for the empty string. -/
def TestEvent.to_embedding_text (e : TestEvent) : String :=
  let text_parts := ["Test failure in " ++ e.test_name, "Class: " ++ e.class_name,
                     "Suite: " ++ e.suite, "Error message: " ++ e.message]
  let text_parts :=
    match e.stacktrace with
    | none => text_parts
    | some st =>
      if st == ("") then text_parts
      else text_parts ++
        ["Stacktrace: " ++ String.intercalate (" ") ((st.splitOn ("\n")).take 10)]
  String.intercalate (" ") text_parts

namespace Settings

/-- config/settings.py: `QDRANT_COLLECTION: str = "test_failures"`. -/
def QDRANT_COLLECTION : String := "test_failures"

/-- config/settings.py: `SIMILARITY_THRESHOLD: float = 0.3`. -/
def SIMILARITY_THRESHOLD : ℚ := 3 / 10

/-- config/settings.py: `TOP_K_RESULTS: int = 5`. -/
def TOP_K_RESULTS : Nat := 5

end Settings

/-- The payload persisted per indexed failure by `VectorStore.index_failure`
(src/vector_store.py).  The uuid point id and the embedding vector live in the
external Qdrant backend and are abstracted away; retrieval scoring happens
against `embedding_text` through the abstract scoring function. -/
structure IndexedPoint where
  event_id : String
  test_id : String
  test_name : String
  class_name : String
  suite : String
  message : String
  stacktrace : String
  timestamp : String
  duration_ms : Nat
  embedding_text : String

/-- The payload built from an event in `VectorStore.index_failure`
(`event.stacktrace or ""` yields the empty string for both `None` and `""`). -/
def pointOfEvent (e : TestEvent) : IndexedPoint :=
  { event_id := e.event_id, test_id := e.test_id, test_name := e.test_name,
    class_name := e.class_name, suite := e.suite, message := e.message,
    stacktrace := (e.stacktrace.getD ("")), timestamp := e.timestamp,
    duration_ms := e.duration_ms, embedding_text := e.to_embedding_text }

/-- One hit returned by `VectorStore.search_similar`: the similarity score
plus the payload fields copied into the result dict. -/
structure SimilarityResult where
  score : ℚ
  test_name : String
  class_name : String
  message : String
  stacktrace : String
  timestamp : String

/-- Stable descending insertion by a rational key: insert before the first
strictly smaller element, so equal keys keep their original (insertion)
order. -/
def insertDescBy {α : Type} (key : α → ℚ) (a : α) : List α → List α
  | [] => [a]
  | b :: l => if key b < key a then a :: b :: l else b :: insertDescBy key a l

/-- Stable sort, non-increasing by a rational key (ties in insertion order). -/
def sortDescBy {α : Type} (key : α → ℚ) : List α → List α
  | [] => []
  | a :: l => insertDescBy key a (sortDescBy key l)

/-- Modelled from the spec: the Similarity Index's k-nearest-neighbor query
(`self.client.query_points` of the Qdrant client, which is not part of this
repository).  Per spec section 4.2 it "returns up to `top_k` entries with
similarity ≥ `score_threshold`, ordered descending by score", ties broken by
index-insertion order.  The similarity of the query text against a stored
entry is given by the abstract scoring function `sc`. -/
def query_points (sc : String → String → ℚ) (store : List IndexedPoint)
    (q : String) (limit : Nat) (score_threshold : ℚ) : List (ℚ × IndexedPoint) :=
  (sortDescBy (fun sp => sp.1)
    ((store.map (fun p => (sc q p.embedding_text, p))).filter
      (fun sp => decide (score_threshold ≤ sp.1)))).take limit

/-- The line `top_k = top_k or settings.TOP_K_RESULTS` of
`VectorStore.search_similar`: Python `or` falls back to the default for a
missing (`None`) argument and for the falsy value `0`. -/
def effective_top_k : Option Nat → Nat
  | none => Settings.TOP_K_RESULTS
  | some k => if k = 0 then Settings.TOP_K_RESULTS else k

/-- The line `threshold = threshold or settings.SIMILARITY_THRESHOLD` of
`VectorStore.search_similar`: Python `or` falls back to the default for
`None` and for the falsy value `0.0`. -/
def effective_threshold : Option ℚ → ℚ
  | none => Settings.SIMILARITY_THRESHOLD
  | some t => if t = 0 then Settings.SIMILARITY_THRESHOLD else t

/-- The result dict built from one hit in `VectorStore.search_similar`. -/
def resultOfHit (sp : ℚ × IndexedPoint) : SimilarityResult :=
  { score := sp.1, test_name := sp.2.test_name, class_name := sp.2.class_name,
    message := sp.2.message, stacktrace := sp.2.stacktrace,
    timestamp := sp.2.timestamp }

/-- `VectorStore.search_similar`: resolve the per-call `top_k` and
`threshold` through Python `or` against the settings defaults, run the
backend query, and project each hit into a result record. -/
def search_similar (sc : String → String → ℚ) (store : List IndexedPoint)
    (query_text : String) (top_k : Option Nat) (threshold : Option ℚ) :
    List SimilarityResult :=
  (query_points sc store query_text (effective_top_k top_k)
    (effective_threshold threshold)).map resultOfHit

/-- `VectorStore.index_failure`: rejects non-failure events with
`ValueError("Can only index failure events")` before any write; otherwise
upserts one point built from the event. -/
def index_failure (store : List IndexedPoint) (e : TestEvent) :
    Except String (List IndexedPoint) :=
  if !e.is_failure then Except.error ("Can only index failure events")
  else Except.ok (store ++ [pointOfEvent e])

/-- The caller-observed store after `index_failure`: on success the new
store, on a raised error the store is untouched. -/
def run_index (store : List IndexedPoint) (e : TestEvent) : List IndexedPoint :=
  match index_failure store e with
  | Except.ok st => st
  | Except.error _ => store

/-- `VectorStore.index_failures`: filters to failures, indexes each in turn,
and returns the number of failures. -/
def index_failures (store : List IndexedPoint) (events : List TestEvent) :
    Except String (List IndexedPoint × Nat) :=
  let failures := events.filter (fun e => e.is_failure)
  (List.foldlM index_failure store failures).map (fun st => (st, failures.length))

/-- `VectorStore.get_collection_info`: the collection name and entry count. -/
def get_collection_info (store : List IndexedPoint) : String × Nat :=
  (Settings.QDRANT_COLLECTION, store.length)

/-- The pattern dict built by `AnalysisService._extract_patterns`.  The
empty-input early return `{"recurring": False, "frequency": 0}` is modelled
with the remaining fields at the values Python's `dict.get(key, default)`
would observe downstream (0 and empty maps). -/
structure Patterns where
  recurring : Bool
  frequency : Nat
  affected_tests : List (String × Nat)
  affected_classes : List (String × Nat)
  avg_similarity : ℚ

/-- `collections.Counter(...).most_common()`: occurrence counts keyed in
first-insertion order, ranked by count descending (stable for ties). -/
def most_common_all (l : List String) : List (String × Nat) :=
  let keys := l.foldl (fun acc x => if acc.contains x then acc else acc ++ [x]) []
  sortDescBy (fun p => (p.2 : ℚ)) (keys.map (fun x => (x, l.count x)))

/-- `collections.Counter(...).most_common(n)`. -/
def most_common (n : Nat) (l : List String) : List (String × Nat) :=
  (most_common_all l).take n

/-- `AnalysisService._extract_patterns`. -/
def extract_patterns (event : TestEvent) (similar : List SimilarityResult) :
    Patterns :=
  if similar.isEmpty then
    { recurring := false, frequency := 0, affected_tests := [],
      affected_classes := [], avg_similarity := 0 }
  else
    { recurring := decide (0 < similar.length) &&
        similar.any (fun s => decide ((85 : ℚ) / 100 < s.score)),
      frequency := similar.length,
      affected_tests := most_common 5 (similar.map (fun s => s.test_name)),
      affected_classes := most_common 5 (similar.map (fun s => s.class_name)),
      avg_similarity :=
        if similar.isEmpty then 0
        else (similar.map (fun s => s.score)).sum / (similar.length : ℚ) }

/-- The recurring-failure warning of `AnalysisService._generate_recommendation`. -/
def recurringWarning (n : Nat) : String :=
  "⚠️ This appears to be a RECURRING failure. Found " ++ toString n ++
    " similar failures."

/-- The very-high-similarity warning of `_generate_recommendation`. -/
def highSimilarityWarning : String :=
  "🔴 Very high similarity with past failures - likely same root cause."

/-- The timeout guidance of `_generate_recommendation`. -/
def timeoutGuidance : String :=
  "⏱️ Timeout error detected. Consider increasing wait times or checking element locators."

/-- The locator guidance of `_generate_recommendation`. -/
def locatorGuidance : String :=
  "🔍 Element not found. Verify locator strategy and page load state."

/-- The assertion guidance of `_generate_recommendation`. -/
def assertionGuidance : String :=
  "✅ Assertion failure. Check expected vs actual values in test data."

/-- The generic fallback of `_generate_recommendation`. -/
def fallbackNote : String :=
  "ℹ️ Review the stacktrace for more details on this failure."

/-- Whether `ndl` occurs at the start of `hay` (Python substring machinery). -/
def listStartsWith : List Char → List Char → Bool
  | _, [] => true
  | [], _ :: _ => false
  | a :: hay, b :: ndl => a == b && listStartsWith hay ndl

/-- Whether `ndl` occurs contiguously anywhere in `hay`. -/
def listContainsSeq : List Char → List Char → Bool
  | [], ndl => ndl.isEmpty
  | c :: rest, ndl => listStartsWith (c :: rest) ndl || listContainsSeq rest ndl

/-- Python's `needle in hay` substring test on strings. -/
def strContains (hay needle : String) : Bool :=
  listContainsSeq hay.data needle.data

/-- `msg.lower()` character by character (the matched needles are pure
ASCII). -/
def strToLower (s : String) : String :=
  String.mk (s.data.map Char.toLower)

/-- The list of recommendation sentences accumulated by
`AnalysisService._generate_recommendation` before the final join; the
`similar` argument is unused by the source as well.  `msg.lower()` is
modelled with `strToLower`. -/
def recommendation_parts (event : TestEvent) (similar : List SimilarityResult)
    (patterns : Patterns) : List String :=
  let recs : List String := []
  let recs := if patterns.recurring then
      recs ++ [recurringWarning patterns.frequency] else recs
  let recs := if (9 : ℚ) / 10 < patterns.avg_similarity then
      recs ++ [highSimilarityWarning] else recs
  let msg := strToLower event.message
  let recs :=
    if strContains msg ("timeout") then recs ++ [timeoutGuidance]
    else if strContains msg ("element not found") || strContains msg ("nosuchelement") then
      recs ++ [locatorGuidance]
    else if strContains msg ("assertion") then recs ++ [assertionGuidance]
    else recs
  if recs.isEmpty then [fallbackNote] else recs

/-- `AnalysisService._generate_recommendation`: the accumulated sentences
joined with `" ".join(...)`. -/
def generate_recommendation (event : TestEvent) (similar : List SimilarityResult)
    (patterns : Patterns) : String :=
  String.intercalate (" ") (recommendation_parts event similar patterns)

/-- The state of one `AnalysisService` instance: the events its parser
yields, the abstract embedding-similarity function, the vector store
contents, and the `_indexed` flag. -/
structure AnalysisService where
  events : List TestEvent
  score : String → String → ℚ
  store : List IndexedPoint
  indexed : Bool

/-- `AnalysisService.__init__`: a fresh in-memory vector store and
`self._indexed = False`. -/
def initService (events : List TestEvent) (sc : String → String → ℚ) :
    AnalysisService :=
  { events := events, score := sc, store := [], indexed := false }

/-- The counts dict returned by `AnalysisService.load_and_index`. -/
structure LoadCounts where
  total_events : Nat
  failures_indexed : Nat
  passed : Nat
  started : Nat
  deriving DecidableEq

/-- `AnalysisService.load_and_index`: filter the parsed events to failures,
index them, set `_indexed = True`, and return the counts. -/
def load_and_index (s : AnalysisService) :
    Except String (LoadCounts × AnalysisService) :=
  let events := s.events
  let failures := events.filter (fun e => e.is_failure)
  (index_failures s.store failures).map (fun r =>
    ({ total_events := events.length,
       failures_indexed := r.2,
       passed := (events.filter (fun e => e.status == ("PASSED"))).length,
       started := (events.filter (fun e => e.status == ("STARTED"))).length },
     { s with store := r.1, indexed := true }))

/-- `AnalysisService.find_similar_failures` (Python default `top_k = 5`):
lazily indexes when `_indexed` is false, then queries the store with the
given `top_k` and no explicit threshold. -/
def find_similar_failures (s : AnalysisService) (error_message : String)
    (top_k : Nat) : Except String (List SimilarityResult × AnalysisService) :=
  match (if !s.indexed then (load_and_index s).map Prod.snd else Except.ok s) with
  | Except.error err => Except.error err
  | Except.ok s2 =>
    Except.ok (search_similar s2.score s2.store error_message (some top_k) none, s2)

/-- The typed failure of `analyze_failure` on a non-failure event (the spec's
`NotAFailure`; the source signals it as the dict
`{"error": "Not a failure event"}`). -/
def NotAFailure : String := "Not a failure event"

/-- The analysis report returned by `AnalysisService.analyze_failure`. -/
structure AnalysisReport where
  test_name : String
  class_name : String
  error_message : String
  similar_failures : List SimilarityResult
  patterns : Patterns
  recommendation : String

/-- `AnalysisService.analyze_failure`: requires a failure event, retrieves
similar failures (with the default `top_k = 5`), extracts patterns and a
recommendation. -/
def analyze_failure (s : AnalysisService) (event : TestEvent) :
    Except String (AnalysisReport × AnalysisService) :=
  if !event.is_failure then Except.error NotAFailure
  else
    match find_similar_failures s event.to_embedding_text 5 with
    | Except.error err => Except.error err
    | Except.ok r =>
      let patterns := extract_patterns event r.1
      Except.ok
        ({ test_name := event.test_name, class_name := event.class_name,
           error_message := event.message, similar_failures := r.1,
           patterns := patterns,
           recommendation := generate_recommendation event r.1 patterns }, r.2)

/-- The caller-observed service state after `analyze_failure`: unchanged when
the call fails. -/
def run_analyze (s : AnalysisService) (event : TestEvent) : AnalysisService :=
  match analyze_failure s event with
  | Except.ok r => r.2
  | Except.error _ => s

/-- The summary dict of `AnalysisService.get_summary`. -/
structure Summary where
  total_tests : Nat
  total_failures : Nat
  failure_rate : ℚ
  failures_by_class : List (String × Nat)
  failures_by_test : List (String × Nat)
  index_info : String × Nat

/-- `AnalysisService.get_summary`: corpus-wide statistics independent of the
vector index (plus the index entry count for observability). -/
def get_summary (s : AnalysisService) : Summary :=
  let events := s.events
  let failures := events.filter (fun e => e.is_failure)
  { total_tests := (events.filter
      (fun e => e.status == ("PASSED") || e.status == ("FAILED"))).length,
    total_failures := failures.length,
    failure_rate :=
      if events.isEmpty then 0
      else (failures.length : ℚ) / (events.length : ℚ) * 100,
    failures_by_class := most_common_all (failures.map (fun f => f.class_name)),
    failures_by_test := most_common_all (failures.map (fun f => f.test_name)),
    index_info := get_collection_info s.store }

/-- A concrete constant scoring function for witnesses. -/
def constScore : String → String → ℚ := fun _ _ => 1

/-- A concrete failure event (status FAILED, level ERROR). -/
def demoFailure : TestEvent :=
  { event_id := "e1", timestamp := "t0", test_id := "t1",
    test_name := "loginTest", suite := "smoke", class_name := "LoginTests",
    environment := "local", level := "ERROR", status := "FAILED",
    message := "Timeout while waiting for assertion", stacktrace := none,
    duration_ms := 0, service := "selenium-ui-tests", attributes := [] }

/-- A field-for-field copy of `demoFailure`. -/
def demoFailureCopy : TestEvent :=
  { event_id := "e1", timestamp := "t0", test_id := "t1",
    test_name := "loginTest", suite := "smoke", class_name := "LoginTests",
    environment := "local", level := "ERROR", status := "FAILED",
    message := "Timeout while waiting for assertion", stacktrace := none,
    duration_ms := 0, service := "selenium-ui-tests", attributes := [] }

/-- A concrete passed (non-failure) event. -/
def demoPassed : TestEvent :=
  { event_id := "e2", timestamp := "t1", test_id := "t2",
    test_name := "searchTest", suite := "smoke", class_name := "SearchTests",
    environment := "local", level := "INFO", status := "PASSED",
    message := "ok", stacktrace := none, duration_ms := 0,
    service := "selenium-ui-tests", attributes := [] }

/-- The indexed point of `demoFailure`. -/
def demoPoint : IndexedPoint := pointOfEvent demoFailure

/-- A concrete service that has not indexed yet. -/
def demoService : AnalysisService :=
  { events := [demoPassed, demoFailure], score := constScore, store := [],
    indexed := false }

/-- A concrete service in the Indexed state. -/
def demoIndexedService : AnalysisService :=
  { events := [demoFailure], score := constScore, store := [demoPoint],
    indexed := true }

/-- A concrete similarity result with a high score. -/
def demoHighResult : SimilarityResult :=
  { score := 9 / 10, test_name := "loginTest", class_name := "LoginTests",
    message := "Timeout while waiting for assertion", stacktrace := "",
    timestamp := "t0" }

/-- A concrete event corpus of 10 events: 7 PASSED and 3 FAILED with level
ERROR. -/
def demo10 : List TestEvent :=
  List.replicate 7 demoPassed ++ List.replicate 3 demoFailure

/-- A concrete service over `demo10`. -/
def demoService10 : AnalysisService :=
  { events := demo10, score := constScore, store := [], indexed := false }

/-- Concrete patterns with nothing recurring and zero average similarity. -/
def demoPatterns : Patterns :=
  { recurring := false, frequency := 0, affected_tests := [],
    affected_classes := [], avg_similarity := 0 }

/-- Membership after stable descending insertion. -/
theorem mem_insertDescBy {α : Type} (key : α → ℚ) (a x : α) (l : List α)
    (h : x ∈ insertDescBy key a l) : x = a ∨ x ∈ l := by
  induction l with
  | nil =>
    simp only [insertDescBy, List.mem_singleton] at h
    exact Or.inl h
  | cons b l ih =>
    simp only [insertDescBy] at h
    split at h
    · rcases List.mem_cons.mp h with h1 | h1
      · exact Or.inl h1
      · exact Or.inr h1
    · rcases List.mem_cons.mp h with h1 | h1
      · exact Or.inr (List.mem_cons.mpr (Or.inl h1))
      · rcases ih h1 with h2 | h2
        · exact Or.inl h2
        · exact Or.inr (List.mem_cons.mpr (Or.inr h2))

/-- Stable descending insertion preserves the non-increasing-key ordering. -/
theorem pairwise_insertDescBy {α : Type} (key : α → ℚ) (a : α) (l : List α)
    (h : l.Pairwise (fun x y => key y ≤ key x)) :
    (insertDescBy key a l).Pairwise (fun x y => key y ≤ key x) := by
  induction l with
  | nil => simp [insertDescBy]
  | cons b l ih =>
    rcases List.pairwise_cons.mp h with ⟨hb, hl⟩
    simp only [insertDescBy]
    split
    · rename_i hlt
      refine List.pairwise_cons.mpr ⟨?_, h⟩
      intro y hy
      rcases List.mem_cons.mp hy with h1 | h1
      · exact le_of_lt (h1 ▸ hlt)
      · exact le_trans (hb y h1) (le_of_lt hlt)
    · rename_i hge
      refine List.pairwise_cons.mpr ⟨?_, ih hl⟩
      intro y hy
      rcases mem_insertDescBy key a y l hy with h1 | h1
      · exact h1 ▸ le_of_not_lt hge
      · exact hb y h1

/-- `sortDescBy` sorts non-increasing by key. -/
theorem pairwise_sortDescBy {α : Type} (key : α → ℚ) (l : List α) :
    (sortDescBy key l).Pairwise (fun x y => key y ≤ key x) := by
  induction l with
  | nil => simp [sortDescBy]
  | cons a l ih => exact pairwise_insertDescBy key a (sortDescBy key l) ih

/-- `sortDescBy` only permutes: every output element came from the input. -/
theorem mem_sortDescBy {α : Type} (key : α → ℚ) (x : α) (l : List α)
    (h : x ∈ sortDescBy key l) : x ∈ l := by
  induction l with
  | nil => simp [sortDescBy] at h
  | cons a l ih =>
    simp only [sortDescBy] at h
    rcases mem_insertDescBy key a x (sortDescBy key l) h with h1 | h1
    · exact List.mem_cons.mpr (Or.inl h1)
    · exact List.mem_cons.mpr (Or.inr (ih h1))

/-- The backend query returns at most `limit` hits. -/
theorem length_query_points (sc : String → String → ℚ) (store : List IndexedPoint)
    (q : String) (limit : Nat) (t : ℚ) :
    (query_points sc store q limit t).length ≤ limit := by
  unfold query_points
  rw [List.length_take]
  exact min_le_left _ _

/-- Every backend hit clears the score threshold. -/
theorem query_points_threshold (sc : String → String → ℚ)
    (store : List IndexedPoint) (q : String) (limit : Nat) (t : ℚ)
    (sp : ℚ × IndexedPoint) (h : sp ∈ query_points sc store q limit t) :
    t ≤ sp.1 := by
  unfold query_points at h
  have h1 := List.Sublist.mem h (List.take_sublist _ _)
  have h2 := mem_sortDescBy _ _ _ h1
  exact of_decide_eq_true (List.mem_filter.mp h2).2

/-- Backend hits are ordered non-increasing by score. -/
theorem pairwise_query_points (sc : String → String → ℚ)
    (store : List IndexedPoint) (q : String) (limit : Nat) (t : ℚ) :
    (query_points sc store q limit t).Pairwise (fun a b => b.1 ≤ a.1) := by
  unfold query_points
  exact List.Pairwise.sublist (List.take_sublist _ _) (pairwise_sortDescBy _ _)

/-- A caller-supplied threshold is a lower bound of the effective one (for
the falsy value 0 the default 3/10 applies, and 0 ≤ 3/10). -/
theorem le_effective_threshold (v : ℚ) : v ≤ effective_threshold (some v) := by
  show v ≤ if v = 0 then Settings.SIMILARITY_THRESHOLD else v
  split
  · rename_i h
    rw [h]
    unfold Settings.SIMILARITY_THRESHOLD
    norm_num
  · exact le_refl v

/-- Folding `index_failure` over a list of failure events never errors and
appends exactly one point per event, in order. -/
theorem foldlM_index_all_failures (events : List TestEvent) (store : List IndexedPoint)
    (h : ∀ e ∈ events, e.is_failure = true) :
    List.foldlM index_failure store events =
      Except.ok (store ++ events.map pointOfEvent) := by
  induction events generalizing store with
  | nil =>
    rw [List.foldlM_nil]
    simp only [List.map_nil, List.append_nil]
    rfl
  | cons e l ih =>
    have he : e.is_failure = true := h e (List.mem_cons_self e l)
    rw [List.foldlM_cons]
    have h1 : index_failure store e = Except.ok (store ++ [pointOfEvent e]) := by
      unfold index_failure
      rw [he]
      rfl
    rw [h1]
    show List.foldlM index_failure (store ++ [pointOfEvent e]) l = _
    rw [ih (store ++ [pointOfEvent e]) (fun x hx => h x (List.mem_cons_of_mem e hx))]
    simp

/-- `index_failures` never errors: it indexes exactly the failure events of
the batch and reports their number. -/
theorem index_failures_spec (store : List IndexedPoint) (events : List TestEvent) :
    index_failures store events =
      Except.ok (store ++ (events.filter (fun e => e.is_failure)).map pointOfEvent,
                 (events.filter (fun e => e.is_failure)).length) := by
  simp only [index_failures]
  rw [foldlM_index_all_failures _ _ (fun e he => (List.mem_filter.mp he).2)]
  rfl

/-- Filtering to failures is idempotent. -/
theorem filter_is_failure_idem (l : List TestEvent) :
    (l.filter (fun e => e.is_failure)).filter (fun e => e.is_failure) =
      l.filter (fun e => e.is_failure) := by
  rw [List.filter_filter]
  simp [Bool.and_self]

/-- `load_and_index` never errors: it returns the event counts and the state
with every failure appended to the store and the `_indexed` flag set. -/
theorem load_and_index_eq (s : AnalysisService) :
    load_and_index s = Except.ok
      ({ total_events := s.events.length,
         failures_indexed := (s.events.filter (fun e => e.is_failure)).length,
         passed := (s.events.filter (fun e => e.status == ("PASSED"))).length,
         started := (s.events.filter (fun e => e.status == ("STARTED"))).length },
       { s with
          store := s.store ++ (s.events.filter (fun e => e.is_failure)).map pointOfEvent,
          indexed := true }) := by
  have h := index_failures_spec s.store (s.events.filter (fun e => e.is_failure))
  rw [filter_is_failure_idem] at h
  simp only [load_and_index]
  rw [h]
  rfl

/-- Claim C1 (amended): for every similarity query, the number of returned
results is at most the effective limit — the supplied `top_k` when nonzero,
else the default 5 (a supplied `top_k` of 0 is falsy in Python and falls back
to the default, so the original bound fails only there); every returned
result has score at least the effective threshold and at least any
caller-supplied threshold value; the results are ordered non-increasing by
score; and the results of `find_similar_failures` are exactly those of a
`search_similar` query with the supplied `top_k` and the default threshold
against the post-indexing state. -/
theorem search_similar_bounds (sc : String → String → ℚ) (store : List IndexedPoint)
    (q : String) (k : Option Nat) (t : Option ℚ) :
    (search_similar sc store q k t).length ≤ effective_top_k k ∧
    (∀ r ∈ search_similar sc store q k t, effective_threshold t ≤ r.score) ∧
    (∀ v : ℚ, t = some v → ∀ r ∈ search_similar sc store q k t, v ≤ r.score) ∧
    (search_similar sc store q k t).Pairwise (fun a b => b.score ≤ a.score) ∧
    (∀ (s : AnalysisService) (kk : Nat) (res : List SimilarityResult)
       (s2 : AnalysisService),
      find_similar_failures s q kk = Except.ok (res, s2) →
      res = search_similar s2.score s2.store q (some kk) none) := by
  have hthr : ∀ r ∈ search_similar sc store q k t, effective_threshold t ≤ r.score := by
    intro r hr
    rcases List.mem_map.mp hr with ⟨sp, hsp, hr2⟩
    have h1 := query_points_threshold sc store q (effective_top_k k)
      (effective_threshold t) sp hsp
    rw [← hr2]
    exact h1
  refine ⟨?_, hthr, ?_, ?_, ?_⟩
  · unfold search_similar
    rw [List.length_map]
    exact length_query_points sc store q (effective_top_k k) (effective_threshold t)
  · intro v hv r hr
    exact le_trans (le_effective_threshold v) (hv ▸ hthr r hr)
  · unfold search_similar
    exact List.pairwise_map.mpr
      (pairwise_query_points sc store q (effective_top_k k) (effective_threshold t))
  · intro s kk res s2 h
    unfold find_similar_failures at h
    cases hs : s.indexed with
    | true =>
      rw [hs] at h
      simp only [Bool.not_true, Bool.false_eq_true, if_false] at h
      cases h
      rfl
    | false =>
      rw [hs] at h
      simp only [Bool.not_false, if_true, load_and_index_eq, Except.map] at h
      cases h
      rfl

/-- Witness for claim C1 at a concrete scoring function, store, query and
supplied limit. -/
theorem search_similar_bounds_w :
    (search_similar constScore [demoPoint] ("q") (some 2) none).length ≤
      effective_top_k (some 2) :=
  (search_similar_bounds constScore [demoPoint] ("q") (some 2) none).1

/-- Counterexample for claim C1 as stated: a query through `search_similar`
with the explicit limit `top_k = 0` over a one-entry store returns one
result, not at most zero — Python's `or` silently replaces the falsy 0 with
the default 5. -/
theorem search_similar_topk_zero_cex :
    ¬ ((search_similar constScore [demoPoint] ("q") (some 0) none).length ≤ 0) := by
  have hth : Settings.SIMILARITY_THRESHOLD ≤ constScore ("q") demoPoint.embedding_text := by
    unfold Settings.SIMILARITY_THRESHOLD constScore
    norm_num
  have h : search_similar constScore [demoPoint] ("q") (some 0) none =
      [resultOfHit (constScore ("q") demoPoint.embedding_text, demoPoint)] := by
    unfold search_similar query_points effective_threshold
    rw [List.map_singleton, List.filter_cons_of_pos (by exact decide_eq_true hth)]
    rfl
  rw [h]
  decide

/-- Claim C6 (amended): `top_k` and `score_threshold` default to 5 and 0.3
when not supplied, and any nonzero per-call value supplied by the caller is
the value actually used for the query; a supplied value of 0 is falsy under
Python's `or` and falls back to the default instead of being used.
`search_similar` runs the backend query exactly at these effective values. -/
theorem search_defaults_override :
    effective_top_k none = 5 ∧
    effective_threshold none = 3 / 10 ∧
    (∀ k : Nat, k ≠ 0 → effective_top_k (some k) = k) ∧
    (∀ t : ℚ, t ≠ 0 → effective_threshold (some t) = t) ∧
    effective_top_k (some 0) = 5 ∧
    effective_threshold (some 0) = 3 / 10 ∧
    (∀ (sc : String → String → ℚ) (store : List IndexedPoint) (q : String)
       (k : Option Nat) (t : Option ℚ),
      search_similar sc store q k t =
        (query_points sc store q (effective_top_k k) (effective_threshold t)).map
          resultOfHit) := by
  refine ⟨rfl, rfl, ?_, ?_, rfl, rfl, fun _ _ _ _ _ => rfl⟩
  · intro k hk
    show (if k = 0 then Settings.TOP_K_RESULTS else k) = k
    rw [if_neg hk]
  · intro t ht
    show (if t = 0 then Settings.SIMILARITY_THRESHOLD else t) = t
    rw [if_neg ht]

/-- Witness for claim C6: a nonzero supplied limit and threshold are used
as-is. -/
theorem search_defaults_override_w :
    effective_top_k (some 2) = 2 ∧ effective_threshold (some (1 / 2)) = 1 / 2 :=
  ⟨search_defaults_override.2.2.1 2 (by decide),
   search_defaults_override.2.2.2.1 (1 / 2) (by norm_num)⟩

/-- Counterexample for claim C6 as stated: a caller-supplied value of 0 for
either parameter is not the value used — the defaults 5 and 0.3 are — and a
query over a one-entry store with `top_k = 0` still returns one result. -/
theorem search_defaults_zero_cex :
    effective_top_k (some 0) ≠ 0 ∧
    effective_threshold (some 0) ≠ 0 ∧
    (search_similar constScore [demoPoint] ("q") (some 0) (some 0)).length = 1 := by
  refine ⟨by decide, ?_, ?_⟩
  · show Settings.SIMILARITY_THRESHOLD ≠ 0
    unfold Settings.SIMILARITY_THRESHOLD
    norm_num
  · have hth : Settings.SIMILARITY_THRESHOLD ≤ constScore ("q") demoPoint.embedding_text := by
      unfold Settings.SIMILARITY_THRESHOLD constScore
      norm_num
    have h : search_similar constScore [demoPoint] ("q") (some 0) (some 0) =
        [resultOfHit (constScore ("q") demoPoint.embedding_text, demoPoint)] := by
      unfold search_similar query_points effective_threshold
      rw [List.map_singleton, List.filter_cons_of_pos (by exact decide_eq_true hth)]
      rfl
    rw [h]
    rfl

/-- Claim C3: `analyze_failure` on an event with `is_failure == false` fails
with the typed error `NotAFailure` (the source returns the error dict before
touching the index), and the caller-observed store entry count is unchanged. -/
theorem analyze_failure_not_a_failure (s : AnalysisService) (e : TestEvent)
    (h : e.is_failure = false) :
    analyze_failure s e = Except.error NotAFailure ∧
    (run_analyze s e).store.length = s.store.length := by
  have h1 : analyze_failure s e = Except.error NotAFailure := by
    unfold analyze_failure
    rw [h]
    rfl
  refine ⟨h1, ?_⟩
  unfold run_analyze
  rw [h1]

/-- Witness for claim C3 at a concrete passed event. -/
theorem analyze_failure_not_a_failure_w :
    demoPassed.is_failure = false ∧
    (analyze_failure demoService demoPassed = Except.error NotAFailure ∧
     (run_analyze demoService demoPassed).store.length = demoService.store.length) :=
  ⟨by decide, analyze_failure_not_a_failure demoService demoPassed (by decide)⟩

/-- Claim C10: `index_failure` raises `ValueError("Can only index failure
events")` on a non-failure event before any embedding or write, leaving the
index contents unchanged. -/
theorem index_failure_rejects_non_failure (store : List IndexedPoint) (e : TestEvent)
    (h : e.is_failure = false) :
    index_failure store e = Except.error ("Can only index failure events") ∧
    run_index store e = store := by
  have h1 : index_failure store e = Except.error ("Can only index failure events") := by
    unfold index_failure
    rw [h]
    rfl
  refine ⟨h1, ?_⟩
  unfold run_index
  rw [h1]

/-- Witness for claim C10 at a concrete passed event and one-entry store. -/
theorem index_failure_rejects_non_failure_w :
    demoPassed.is_failure = false ∧
    (index_failure [demoPoint] demoPassed =
       Except.error ("Can only index failure events") ∧
     run_index [demoPoint] demoPassed = [demoPoint]) :=
  ⟨by decide, index_failure_rejects_non_failure [demoPoint] demoPassed (by decide)⟩

/-- Claim C5: `load_and_index` never errors; it returns total events = length
of the list, failures indexed = the number of events with `is_failure` true,
passed = the number with status PASSED, started = the number with status
STARTED, and the non-failure events are skipped while every failure event of
the batch is appended to the index. -/
theorem load_and_index_counts (s : AnalysisService) :
    load_and_index s = Except.ok
      ({ total_events := s.events.length,
         failures_indexed := s.events.countP (fun e => e.is_failure),
         passed := s.events.countP (fun e => e.status == ("PASSED")),
         started := s.events.countP (fun e => e.status == ("STARTED")) },
       { s with
          store := s.store ++ (s.events.filter (fun e => e.is_failure)).map pointOfEvent,
          indexed := true }) := by
  rw [load_and_index_eq]
  simp [List.countP_eq_length_filter]

/-- Claim C8: the `_indexed` state starts false, `find_similar_failures` on
an unindexed instance performs `load_and_index` before querying, and once the
state is Indexed no engine operation returns it to Uninitialized. -/
theorem indexed_state_machine :
    (∀ (events : List TestEvent) (sc : String → String → ℚ),
      (initService events sc).indexed = false) ∧
    (∀ (s : AnalysisService) (q : String) (k : Nat), s.indexed = false →
      find_similar_failures s q k =
        (load_and_index s).map (fun p =>
          (search_similar p.2.score p.2.store q (some k) none, p.2))) ∧
    (∀ (s : AnalysisService) (c : LoadCounts) (s2 : AnalysisService),
      load_and_index s = Except.ok (c, s2) → s2.indexed = true) ∧
    (∀ (s : AnalysisService) (q : String) (k : Nat) (res : List SimilarityResult)
       (s2 : AnalysisService), s.indexed = true →
      find_similar_failures s q k = Except.ok (res, s2) → s2.indexed = true) ∧
    (∀ (s : AnalysisService) (e : TestEvent) (r : AnalysisReport)
       (s2 : AnalysisService), s.indexed = true →
      analyze_failure s e = Except.ok (r, s2) → s2.indexed = true) := by
  refine ⟨fun _ _ => rfl, ?_, ?_, ?_, ?_⟩
  · intro s q k h
    unfold find_similar_failures
    rw [h]
    simp only [Bool.not_false, if_true, load_and_index_eq, Except.map]
  · intro s c s2 h
    rw [load_and_index_eq] at h
    cases h
    rfl
  · intro s q k res s2 hs h
    unfold find_similar_failures at h
    rw [hs] at h
    simp only [Bool.not_true, Bool.false_eq_true, if_false] at h
    cases h
    exact hs
  · intro s e r s2 hs h
    have hfind : find_similar_failures s e.to_embedding_text 5 =
        Except.ok (search_similar s.score s.store e.to_embedding_text (some 5) none, s) := by
      unfold find_similar_failures
      rw [hs]
      rfl
    unfold analyze_failure at h
    by_cases hf : e.is_failure = true
    · rw [hf] at h
      simp only [Bool.not_true, Bool.false_eq_true, if_false] at h
      rw [hfind] at h
      cases h
      exact hs
    · rw [Bool.not_eq_true] at hf
      rw [hf] at h
      cases h

/-- Witness for claim C8: a freshly constructed service is unindexed, and a
query on an already-indexed service keeps the state indexed. -/
theorem indexed_state_machine_w :
    (initService [] constScore).indexed = false ∧
    demoIndexedService.indexed = true :=
  ⟨indexed_state_machine.1 [] constScore,
   indexed_state_machine.2.2.2.1 demoIndexedService ("q") 3
     (search_similar demoIndexedService.score demoIndexedService.store ("q")
       (some 3) none)
     demoIndexedService rfl (by rfl)⟩

/-- Claim C4: the pattern summary's `recurring` flag is true exactly when
some retrieved result scores strictly above 0.85; in particular it is false
on an empty retrieval list (there is then no such result). -/
theorem extract_patterns_recurring_iff (event : TestEvent)
    (similar : List SimilarityResult) :
    (extract_patterns event similar).recurring = true ↔
      ∃ r ∈ similar, (85 : ℚ) / 100 < r.score := by
  cases similar with
  | nil => simp [extract_patterns]
  | cons a l => simp [extract_patterns, List.any_eq_true, Nat.succ_pos]

/-- Witness for claim C4: one retrieved result scoring 0.9 makes the failure
recurring. -/
theorem extract_patterns_recurring_iff_w :
    (extract_patterns demoFailure [demoHighResult]).recurring = true :=
  (extract_patterns_recurring_iff demoFailure [demoHighResult]).mpr
    ⟨demoHighResult, List.mem_singleton.mpr rfl, by norm_num [demoHighResult]⟩

/-- Claim C9: `to_embedding_text` and `failure_signature` depend only on the
event's stored field values — two events with identical fields yield
identical strings (referential stability / two-run determinism, automatic
here because both are pure functions of the fields). -/
theorem embedding_text_deterministic (e1 e2 : TestEvent)
    (h1 : e1.event_id = e2.event_id) (h2 : e1.timestamp = e2.timestamp)
    (h3 : e1.test_id = e2.test_id) (h4 : e1.test_name = e2.test_name)
    (h5 : e1.suite = e2.suite) (h6 : e1.class_name = e2.class_name)
    (h7 : e1.environment = e2.environment) (h8 : e1.level = e2.level)
    (h9 : e1.status = e2.status) (h10 : e1.message = e2.message)
    (h11 : e1.stacktrace = e2.stacktrace) (h12 : e1.duration_ms = e2.duration_ms)
    (h13 : e1.service = e2.service) (h14 : e1.attributes = e2.attributes) :
    e1.to_embedding_text = e2.to_embedding_text ∧
    e1.failure_signature = e2.failure_signature := by
  have he : e1 = e2 := by
    cases e1
    cases e2
    simp_all
  rw [he]
  exact ⟨rfl, rfl⟩

/-- Witness for claim C9: two field-for-field equal concrete events. -/
theorem embedding_text_deterministic_w :
    demoFailure.to_embedding_text = demoFailureCopy.to_embedding_text ∧
    demoFailure.failure_signature = demoFailureCopy.failure_signature :=
  embedding_text_deterministic demoFailure demoFailureCopy
    rfl rfl rfl rfl rfl rfl rfl rfl rfl rfl rfl rfl rfl rfl

/-- Counting a disjunction of pointwise-exclusive predicates adds the
counts. -/
theorem countP_or_disjoint {α : Type} (p q : α → Bool)
    (hpq : ∀ a, ¬(p a = true ∧ q a = true)) (l : List α) :
    l.countP (fun a => p a || q a) = l.countP p + l.countP q := by
  induction l with
  | nil => simp
  | cons a l ih =>
    rw [List.countP_cons, List.countP_cons, List.countP_cons, ih]
    cases hp : p a with
    | false => cases hq : q a <;> simp [hp, hq] <;> omega
    | true =>
      have hq : q a = false := by
        cases hq : q a with
        | false => rfl
        | true => exact absurd ⟨hp, hq⟩ (hpq a)
      simp [hp, hq]
      omega

/-- Claim C7: over a corpus of 10 events of which 7 are PASSED and 3 are
failures (status FAILED with level ERROR), `get_summary` reports
`total_tests = 10`, `total_failures = 3` and `failure_rate = 30`. -/
theorem get_summary_ten_events (s : AnalysisService)
    (hlen : s.events.length = 10)
    (hp : s.events.countP (fun e => e.status == ("PASSED")) = 7)
    (hf : s.events.countP (fun e => e.is_failure) = 3) :
    (get_summary s).total_tests = 10 ∧
    (get_summary s).total_failures = 3 ∧
    (get_summary s).failure_rate = 30 := by
  have hdis : ∀ e : TestEvent,
      ¬((e.status == ("PASSED")) = true ∧ e.is_failure = true) := by
    rintro e ⟨h1, h2⟩
    unfold TestEvent.is_failure at h2
    rw [Bool.and_eq_true] at h2
    have hs1 : e.status = "PASSED" := by simpa using h1
    have hs2 : e.status = "FAILED" := by simpa using h2.1
    rw [hs1] at hs2
    exact absurd hs2 (by decide)
  have hsum : s.events.countP (fun e => (e.status == ("PASSED")) || e.is_failure) = 10 := by
    rw [countP_or_disjoint _ _ hdis, hp, hf]
  have himp : ∀ e ∈ s.events, ((e.status == ("PASSED")) || e.is_failure) = true →
      ((e.status == ("PASSED")) || (e.status == ("FAILED"))) = true := by
    intro e _ h
    rw [Bool.or_eq_true] at h
    rw [Bool.or_eq_true]
    rcases h with h | h
    · exact Or.inl h
    · unfold TestEvent.is_failure at h
      rw [Bool.and_eq_true] at h
      exact Or.inr h.1
  have h1 := List.countP_mono_left himp
  have h2 := List.countP_le_length
    (fun e => (e.status == ("PASSED")) || (e.status == ("FAILED"))) (l := s.events)
  have htt : s.events.countP
      (fun e => (e.status == ("PASSED")) || (e.status == ("FAILED"))) = 10 :=
    le_antisymm (hlen ▸ h2) (hsum ▸ h1)
  have htt2 : (s.events.filter
      (fun e => e.status == ("PASSED") || e.status == ("FAILED"))).length = 10 := by
    rw [← List.countP_eq_length_filter]
    exact htt
  have h3 : (s.events.filter (fun e => e.is_failure)).length = 3 := by
    rw [← List.countP_eq_length_filter]
    exact hf
  have hne : s.events.isEmpty = false := by
    cases hev : s.events with
    | nil => rw [hev] at hlen; simp at hlen
    | cons a l => rfl
  refine ⟨?_, ?_, ?_⟩
  · simp only [get_summary]
    exact htt2
  · simp only [get_summary]
    exact h3
  · simp only [get_summary, hne, Bool.false_eq_true, if_false]
    rw [h3, hlen]
    norm_num

/-- Witness for claim C7: the concrete 10-event corpus of 7 PASSED and 3
FAILED-with-ERROR events. -/
theorem get_summary_ten_events_w :
    demoService10.events.length = 10 ∧
    demoService10.events.countP (fun e => e.status == ("PASSED")) = 7 ∧
    demoService10.events.countP (fun e => e.is_failure) = 3 ∧
    ((get_summary demoService10).total_tests = 10 ∧
     (get_summary demoService10).total_failures = 3 ∧
     (get_summary demoService10).failure_rate = 30) :=
  ⟨by decide, by decide, by decide,
   get_summary_ten_events demoService10 (by decide) (by decide) (by decide)⟩

/-- Appending to a character list preserves a concrete string's data. -/
theorem string_data_append (s t : String) : (s ++ t).data = s.data ++ t.data := by
  cases s
  cases t
  rfl

/-- Two strings whose first characters differ are different. -/
theorem string_ne_of_head (s t : String) (c d : Char) (hs : s.data.head? = some c)
    (ht : t.data.head? = some d) (h : c ≠ d) : s ≠ t := by
  intro he
  apply h
  rw [he] at hs
  rw [hs] at ht
  exact Option.some.inj ht

/-- The recurring warning always starts with the warning-sign character,
whatever the interpolated count is. -/
theorem recurringWarning_head (n : Nat) :
    (recurringWarning n).data.head? = some '⚠' := by
  unfold recurringWarning
  rw [string_data_append, string_data_append]
  rfl

/-- The timeout guidance never coincides with the recurring warning. -/
theorem timeout_ne_recurring (n : Nat) : timeoutGuidance ≠ recurringWarning n :=
  string_ne_of_head _ _ '⏱' '⚠' rfl (recurringWarning_head n) (by decide)

/-- The locator guidance never coincides with the recurring warning. -/
theorem locator_ne_recurring (n : Nat) : locatorGuidance ≠ recurringWarning n :=
  string_ne_of_head _ _ '🔍' '⚠' rfl (recurringWarning_head n) (by decide)

/-- The assertion guidance never coincides with the recurring warning. -/
theorem assertion_ne_recurring (n : Nat) : assertionGuidance ≠ recurringWarning n :=
  string_ne_of_head _ _ '✅' '⚠' rfl (recurringWarning_head n) (by decide)

/-- The timeout and high-similarity messages differ. -/
theorem timeout_ne_high : timeoutGuidance ≠ highSimilarityWarning := by decide

/-- The locator and high-similarity messages differ. -/
theorem locator_ne_high : locatorGuidance ≠ highSimilarityWarning := by decide

/-- The assertion and high-similarity messages differ. -/
theorem assertion_ne_high : assertionGuidance ≠ highSimilarityWarning := by decide

/-- The locator and timeout messages differ. -/
theorem locator_ne_timeout : locatorGuidance ≠ timeoutGuidance := by decide

/-- The assertion and timeout messages differ. -/
theorem assertion_ne_timeout : assertionGuidance ≠ timeoutGuidance := by decide

/-- The timeout and locator messages differ. -/
theorem timeout_ne_locator : timeoutGuidance ≠ locatorGuidance := by decide

/-- The assertion and locator messages differ. -/
theorem assertion_ne_locator : assertionGuidance ≠ locatorGuidance := by decide

/-- The timeout and assertion messages differ. -/
theorem timeout_ne_assertion : timeoutGuidance ≠ assertionGuidance := by decide

/-- The locator and assertion messages differ. -/
theorem locator_ne_assertion : locatorGuidance ≠ assertionGuidance := by decide

/-- The timeout and fallback messages differ. -/
theorem timeout_ne_fallback : timeoutGuidance ≠ fallbackNote := by decide

/-- The locator and fallback messages differ. -/
theorem locator_ne_fallback : locatorGuidance ≠ fallbackNote := by decide

/-- The assertion and fallback messages differ. -/
theorem assertion_ne_fallback : assertionGuidance ≠ fallbackNote := by decide

/-- Claim C2: at most one of the three text-matching rules contributes to the
recommendation, chosen by first match on the lowercased error message in the
fixed order timeout, then element-not-found/nosuchelement, then assertion; in
particular a message containing both "timeout" and "assertion" receives the
timeout guidance and not the assertion guidance. -/
theorem recommendation_first_match (event : TestEvent)
    (similar : List SimilarityResult) (patterns : Patterns) :
    (strContains (strToLower event.message) ("timeout") = true →
      timeoutGuidance ∈ recommendation_parts event similar patterns ∧
      locatorGuidance ∉ recommendation_parts event similar patterns ∧
      assertionGuidance ∉ recommendation_parts event similar patterns) ∧
    (strContains (strToLower event.message) ("timeout") = false →
      (strContains (strToLower event.message) ("element not found") ||
       strContains (strToLower event.message) ("nosuchelement")) = true →
      locatorGuidance ∈ recommendation_parts event similar patterns ∧
      timeoutGuidance ∉ recommendation_parts event similar patterns ∧
      assertionGuidance ∉ recommendation_parts event similar patterns) ∧
    (strContains (strToLower event.message) ("timeout") = false →
      (strContains (strToLower event.message) ("element not found") ||
       strContains (strToLower event.message) ("nosuchelement")) = false →
      strContains (strToLower event.message) ("assertion") = true →
      assertionGuidance ∈ recommendation_parts event similar patterns ∧
      timeoutGuidance ∉ recommendation_parts event similar patterns ∧
      locatorGuidance ∉ recommendation_parts event similar patterns) ∧
    (strContains (strToLower event.message) ("timeout") = false →
      (strContains (strToLower event.message) ("element not found") ||
       strContains (strToLower event.message) ("nosuchelement")) = false →
      strContains (strToLower event.message) ("assertion") = false →
      timeoutGuidance ∉ recommendation_parts event similar patterns ∧
      locatorGuidance ∉ recommendation_parts event similar patterns ∧
      assertionGuidance ∉ recommendation_parts event similar patterns) := by
  refine ⟨?_, ?_, ?_, ?_⟩
  · intro h1
    by_cases hr : patterns.recurring = true <;>
      by_cases ha : (9 : ℚ) / 10 < patterns.avg_similarity <;>
        simp [recommendation_parts, h1, hr, ha, locator_ne_timeout,
          assertion_ne_timeout, locator_ne_high, assertion_ne_high,
          locator_ne_recurring, assertion_ne_recurring]
  · intro h1 h2
    by_cases hr : patterns.recurring = true <;>
      by_cases ha : (9 : ℚ) / 10 < patterns.avg_similarity <;>
        simp [recommendation_parts, h1, h2, hr, ha, timeout_ne_locator,
          assertion_ne_locator, timeout_ne_high, assertion_ne_high,
          timeout_ne_recurring, assertion_ne_recurring]
  · intro h1 h2 h3
    by_cases hr : patterns.recurring = true <;>
      by_cases ha : (9 : ℚ) / 10 < patterns.avg_similarity <;>
        simp [recommendation_parts, h1, h2, h3, hr, ha, timeout_ne_assertion,
          locator_ne_assertion, timeout_ne_high, locator_ne_high,
          timeout_ne_recurring, locator_ne_recurring]
  · intro h1 h2 h3
    by_cases hr : patterns.recurring = true <;>
      by_cases ha : (9 : ℚ) / 10 < patterns.avg_similarity <;>
        simp [recommendation_parts, h1, h2, h3, hr, ha, timeout_ne_fallback,
          locator_ne_fallback, assertion_ne_fallback, timeout_ne_high,
          locator_ne_high, assertion_ne_high, timeout_ne_recurring,
          locator_ne_recurring, assertion_ne_recurring]

/-- Witness for claim C2: a concrete message containing both "timeout" and
"assertion" (case-insensitively) receives the timeout guidance and not the
assertion guidance. -/
theorem recommendation_first_match_w :
    strContains (strToLower demoFailure.message) ("timeout") = true ∧
    strContains (strToLower demoFailure.message) ("assertion") = true ∧
    (timeoutGuidance ∈ recommendation_parts demoFailure [] demoPatterns ∧
     locatorGuidance ∉ recommendation_parts demoFailure [] demoPatterns ∧
     assertionGuidance ∉ recommendation_parts demoFailure [] demoPatterns) :=
  ⟨by decide, by decide,
   (recommendation_first_match demoFailure [] demoPatterns).1 (by decide)⟩

/-- Witness for claim C5 at a concrete two-event service (one passed, one
failure). -/
theorem load_and_index_counts_w :
    load_and_index demoService = Except.ok
      ({ total_events := demoService.events.length,
         failures_indexed := demoService.events.countP (fun e => e.is_failure),
         passed := demoService.events.countP (fun e => e.status == ("PASSED")),
         started := demoService.events.countP (fun e => e.status == ("STARTED")) },
       { demoService with
          store := demoService.store ++
            (demoService.events.filter (fun e => e.is_failure)).map pointOfEvent,
          indexed := true }) :=
  load_and_index_counts demoService
